import Mathlib

/-!
Verification of the moqui-skill XML validators.

Shallow embedding of the rule-evaluation core of
scripts/validate_entity.py and scripts/validate_service.py.

The parsed-XML tree abstraction (ElementTree) is modelled by the
inductive type Node below: a tag, an ordered attribute list, ordered
children and optional text content.  Python attribute lookup
element.get(key) returns the first matching attribute value or None;
Python truthiness conflates None and the empty string, modelled by
the function truthy.  Findings are modelled as an inductive type with
one constructor per distinct message template of the scripts, carrying
exactly the names interpolated into that message.
-/

inductive Node where
  | mk (tag : String) (attrs : List (String × String)) (children : List Node)
       (text : Option String)
deriving Repr

def Node.tag : Node → String
  | .mk t _ _ _ => t

def Node.attrs : Node → List (String × String)
  | .mk _ a _ _ => a

def Node.children : Node → List Node
  | .mk _ _ c _ => c

def Node.text : Node → Option String
  | .mk _ _ _ tx => tx

/-- Python ElementTree element.get(key): the attribute value, if present. -/
def Node.get (n : Node) (key : String) : Option String :=
  (n.attrs.find? (fun p => p.1 == key)).map Prod.snd

/-- Python ElementTree findall(tag): the direct children with the given tag. -/
def Node.findall (n : Node) (t : String) : List Node :=
  n.children.filter (fun c => c.tag == t)

/-- Python ElementTree find(tag): the first direct child with the given tag. -/
def Node.find (n : Node) (t : String) : Option Node :=
  n.children.find? (fun c => c.tag == t)

/-- Replace the root tag, keeping attributes, children and text. -/
def retag (n : Node) (t : String) : Node :=
  .mk t n.attrs n.children n.text

/-- Python truthiness of an optional string: None and the empty string are falsy. -/
def truthy : Option String → Option String
  | some s => if s = "" then none else some s
  | none => none

/-- Python str.isalnum: nonempty and every character alphanumeric. -/
def pyIsalnum (s : String) : Bool :=
  !(s.data.isEmpty) && s.data.all Char.isAlphanum

/-- Python str.islower: at least one cased character and no uppercase character. -/
def pyIslower (s : String) : Bool :=
  s.data.any Char.isAlpha && s.data.all (fun c => !(c.isUpper))

/-- Python s[0].isupper() for a nonempty string (False on the empty string). -/
def pyFirstIsUpper (s : String) : Bool :=
  match s.data with
  | [] => false
  | c :: _ => c.isUpper

/-- Python s.replace of underscores by the empty string. -/
def stripUnderscores (s : String) : String :=
  String.mk (s.data.filter (fun c => c ≠ '_'))

/-- Initial-segment test on character lists (structural, kernel-reducible). -/
def leadMatch : List Char → List Char → Bool
  | [], _ => true
  | _ :: _, [] => false
  | a :: as, b :: bs => a == b && leadMatch as bs

/-- Python s.endswith(suffix), by matching the reversed character lists. -/
def pyEndswith (s suffix : String) : Bool :=
  leadMatch suffix.data.reverse s.data.reverse

/-- Naive substring search on character lists. -/
def hasSub : List Char → List Char → Bool
  | [], pat => pat.isEmpty
  | c :: rest, pat => leadMatch pat (c :: rest) || hasSub rest pat

/-- Python substring test pat in s. -/
def strContains (s pat : String) : Bool :=
  hasSub s.data pat.data

/-- Python s.lower(), on the ASCII subset exercised by the validators. -/
def pyLower (s : String) : String :=
  String.mk (s.data.map Char.toLower)

/-- Python str.strip whitespace set: space, tab, newline, return, vtab, formfeed. -/
def isPySpace (c : Char) : Bool :=
  c == ' ' || c == '\t' || c == '\n' || c == '\r' ||
    c == (Char.ofNat 11) || c == (Char.ofNat 12)

/-- Python s.strip(): remove leading and trailing whitespace. -/
def pyStrip (s : String) : String :=
  String.mk (((s.data.dropWhile isPySpace).reverse.dropWhile isPySpace).reverse)

/--
Python url in str(root.attrib).  The marker URLs contain no quote,
brace, comma or backslash, so an occurrence inside the repr of the
attribute dict lies entirely within a single key or a single value.
-/
def nsMarkerInAttribs (attrs : List (String × String)) (url : String) : Bool :=
  attrs.any (fun p => strContains p.1 url || strContains p.2 url)

/-- One finding per distinct message template of the two validators. -/
inductive Finding where
  | rootShouldBeEntities
  | nsEntitySuggestion
  | entityMissingName
  | entityMissingPackage (entityName : String)
  | entityNamingSuggestion (entityName : String)
  | entityNoFields (entityName : String)
  | fieldMissingName (entityName : String)
  | fieldMissingType (entityName fieldName : String)
  | fieldUnknownType (entityName fieldName fieldType : String)
  | pkNamingSuggestion (entityName fieldName expected : String)
  | idSuffixSuggestion (entityName fieldName : String)
  | dateSuffixSuggestion (entityName fieldName : String)
  | entityNoPrimaryKey (entityName : String)
  | relMissingType (entityName : String)
  | relTypeSuggestion (entityName relType : String)
  | relMissingRelated (entityName : String)
  | relShortAliasSuggestion (entityName : String)
  | relMissingKeyMaps (entityName : String)
  | keyMapMissingFieldName (entityName : String)
  | rootShouldBeServices
  | nsServiceSuggestion
  | verbShouldBeLowercase (serviceName : String)
  | nounPascalSuggestion (serviceName : String)
  | serviceMissingVerbOrNoun
  | requireAllRolesSuggestion (serviceName : String)
  | paramMissingName (serviceName : String)
  | paramTypeSuggestion (paramName : String)
  | serviceMissingActions (serviceName : String)
  | serviceEmptyActions (serviceName : String)
deriving Repr, DecidableEq

/-- VALID_FIELD_TYPES of validate_entity.py (membership is all that is used). -/
def VALID_FIELD_TYPES : List String :=
  ["id", "id-long", "text-short", "text-medium", "text-long", "text-very-long",
   "number-integer", "number-float", "number-decimal", "currency-amount",
   "date", "time", "date-time", "timestamp", "boolean", "text-indicator"]

/-- Display name of an entity: entity.get with default value unnamed entity. -/
def entityDisplayName (e : Node) : String :=
  (e.get "entity-name").getD "unnamed entity"

/-- Missing-type issue (line 72): a truthiness test on the type attribute. -/
def fieldTypeIssues (entityName name : String) (fieldType : Option String) :
    List Finding :=
  match truthy fieldType with
  | none => [Finding.fieldMissingType entityName name]
  | some _ => []

/-- Unknown-type suggestion (line 74): only for a truthy type value outside
VALID_FIELD_TYPES (the elif branch of the missing-type test). -/
def fieldTypeSuggs (entityName name : String) (fieldType : Option String) :
    List Finding :=
  match truthy fieldType with
  | none => []
  | some t =>
    if t ∈ VALID_FIELD_TYPES then []
    else [Finding.fieldUnknownType entityName name t]

/-- Primary-key-naming suggestion (lines 78-82): for a field flagged
is-pk=true whose name differs from lowercase(entity-name) ++ Id. -/
def fieldPkSuggs (entityName name : String) (isPk : Bool) : List Finding :=
  if isPk && name != pyLower entityName ++ "Id" then
    [Finding.pkNamingSuggestion entityName name (pyLower entityName ++ "Id")]
  else []

/-- Id-suffix suggestion (lines 85-86): the raw type attribute is compared
with id, so a missing or empty type also triggers it. -/
def fieldIdSuggs (entityName name : String) (fieldType : Option String) :
    List Finding :=
  if pyEndswith name "Id" && fieldType != some "id" then
    [Finding.idSuffixSuggestion entityName name]
  else []

/-- Date-suffix suggestion (lines 88-89): guarded by the truthiness of the
type attribute, so a missing or empty type never triggers it. -/
def fieldDateSuggs (entityName name : String) (fieldType : Option String) :
    List Finding :=
  match truthy fieldType with
  | some t =>
    if pyEndswith name "Date" && !(strContains t "date") then
      [Finding.dateSuffixSuggestion entityName name]
    else []
  | none => []

/--
Body of the per-field loop of check_entity_patterns (validate_entity.py,
lines 63-89): issues, suggestions, and the contribution to primary_keys.
A field whose name is missing or empty yields the missing-name issue and
the loop continues, skipping every other check and the primary-key record.
-/
def checkField (entityName : String) (field : Node) :
    List Finding × List Finding × List String :=
  match truthy (field.get "name") with
  | none => ([Finding.fieldMissingName entityName], [], [])
  | some name =>
    (fieldTypeIssues entityName name (field.get "type"),
     fieldTypeSuggs entityName name (field.get "type") ++
       fieldPkSuggs entityName name (field.get "is-pk" == some "true") ++
       fieldIdSuggs entityName name (field.get "type") ++
       fieldDateSuggs entityName name (field.get "type"),
     if field.get "is-pk" == some "true" then [name] else [])

/-- Body of the per-relationship loop (validate_entity.py, lines 96-119). -/
def checkRelationship (entityName : String) (rel : Node) :
    List Finding × List Finding :=
  let typeFinds : List Finding × List Finding :=
    match truthy (rel.get "type") with
    | none => ([Finding.relMissingType entityName], [])
    | some t =>
      if t ∈ ["one", "many", "one-nofk"] then ([], [])
      else ([], [Finding.relTypeSuggestion entityName t])
  let relatedIssues :=
    match truthy (rel.get "related") with
    | none => [Finding.relMissingRelated entityName]
    | some _ => []
  let aliasSuggs :=
    match truthy (rel.get "short-alias") with
    | none => [Finding.relShortAliasSuggestion entityName]
    | some _ => []
  let keyMaps := rel.findall "key-map"
  let kmIssues := if keyMaps.isEmpty then [Finding.relMissingKeyMaps entityName] else []
  let kmNameIssues := keyMaps.filterMap (fun km =>
    match truthy (km.get "field-name") with
    | none => some (Finding.keyMapMissingFieldName entityName)
    | some _ => none)
  (typeFinds.1 ++ relatedIssues ++ kmIssues ++ kmNameIssues,
   typeFinds.2 ++ aliasSuggs)

/-- The primary_keys list accumulated over the fields of one entity. -/
def entityPrimaryKeys (e : Node) : List String :=
  ((e.findall "field").map
    (fun f => (checkField (entityDisplayName e) f).2.2)).flatten

/-- Body of the per-entity loop of check_entity_patterns (lines 43-119). -/
def checkEntity (e : Node) : List Finding × List Finding :=
  let entityName := entityDisplayName e
  let nameIssues :=
    match truthy (e.get "entity-name") with
    | none => [Finding.entityMissingName]
    | some _ => []
  let pkgIssues :=
    match truthy (e.get "package") with
    | none => [Finding.entityMissingPackage entityName]
    | some _ => []
  let namingSuggs :=
    if entityName != "" && !(pyIsalnum (stripUnderscores entityName)) then
      [Finding.entityNamingSuggestion entityName]
    else []
  let fields := e.findall "field"
  let noFieldIssues := if fields.isEmpty then [Finding.entityNoFields entityName] else []
  let fieldIssues := (fields.map (fun f => (checkField entityName f).1)).flatten
  let fieldSuggs := (fields.map (fun f => (checkField entityName f).2.1)).flatten
  let pkIssues :=
    if (entityPrimaryKeys e).isEmpty then [Finding.entityNoPrimaryKey entityName] else []
  let rels := e.findall "relationship"
  let relIssues := (rels.map (fun r => (checkRelationship entityName r).1)).flatten
  let relSuggs := (rels.map (fun r => (checkRelationship entityName r).2)).flatten
  (nameIssues ++ pkgIssues ++ noFieldIssues ++ fieldIssues ++ pkIssues ++ relIssues,
   namingSuggs ++ fieldSuggs ++ relSuggs)

def entityXsdUrl : String := "http://moqui.org/xsd/entity-definition-3.xsd"

/-- check_entity_patterns of validate_entity.py on an already-parsed tree. -/
def check_entity_patterns (root : Node) : List Finding × List Finding :=
  let rootIssues := if root.tag != "entities" then [Finding.rootShouldBeEntities] else []
  let nsSuggs :=
    if !(nsMarkerInAttribs root.attrs entityXsdUrl) then [Finding.nsEntitySuggestion] else []
  let ents := root.findall "entity"
  (rootIssues ++ (ents.map (fun e => (checkEntity e).1)).flatten,
   nsSuggs ++ (ents.map (fun e => (checkEntity e).2)).flatten)

/-- Body of the per-parameter loop (validate_service.py, lines 60-65). -/
def checkParameter (serviceName : String) (param : Node) :
    List Finding × List Finding :=
  match truthy (param.get "name") with
  | none => ([Finding.paramMissingName serviceName], [])
  | some pname =>
    if truthy (param.get "type") == none && truthy (param.get "required") == none then
      ([], [Finding.paramTypeSuggestion pname])
    else ([], [])

/-- Service display name: verb#noun when both are truthy, else unnamed service. -/
def serviceDisplayName (svc : Node) : String :=
  match truthy (svc.get "verb"), truthy (svc.get "noun") with
  | some v, some n => v ++ "#" ++ n
  | _, _ => "unnamed service"

/-- Verb-noun naming block (validate_service.py, lines 41-48): the casing
checks run only when verb and noun are both truthy; otherwise the single
missing-verb-or-noun issue is emitted. -/
def svcNameFinds (svc : Node) : List Finding × List Finding :=
  match truthy (svc.get "verb"), truthy (svc.get "noun") with
  | some v, some n =>
    ((if !(pyIslower v) then
        [Finding.verbShouldBeLowercase (serviceDisplayName svc)] else []),
     (if !(pyFirstIsUpper n) then
        [Finding.nounPascalSuggestion (serviceDisplayName svc)] else []))
  | _, _ => ([Finding.serviceMissingVerbOrNoun], [])

/-- Authentication block (lines 51-53): authenticate defaults to true when
absent; a truthiness test is applied to require-all-roles. -/
def svcAuthSuggs (svc : Node) : List Finding :=
  if ((svc.get "authenticate").getD "true") == "true" &&
      truthy (svc.get "require-all-roles") == none then
    [Finding.requireAllRolesSuggestion (serviceDisplayName svc)]
  else []

/-- Parameter block (lines 56-65): the per-parameter results, in order. -/
def svcParamResults (svc : Node) : List (List Finding × List Finding) :=
  match svc.find "in-parameters" with
  | none => []
  | some ip => (ip.findall "parameter").map (checkParameter (serviceDisplayName svc))

/-- Actions block (lines 67-72): missing actions child, or an actions child
whose text is None or whitespace-only (an if-elif chain, so at most one). -/
def svcActionIssues (svc : Node) : List Finding :=
  match svc.find "actions" with
  | none => [Finding.serviceMissingActions (serviceDisplayName svc)]
  | some a =>
    match a.text with
    | none => [Finding.serviceEmptyActions (serviceDisplayName svc)]
    | some tx =>
      if pyStrip tx = "" then [Finding.serviceEmptyActions (serviceDisplayName svc)] else []

/-- Body of the per-service loop of check_service_patterns (lines 36-72). -/
def checkService (svc : Node) : List Finding × List Finding :=
  ((svcNameFinds svc).1 ++ ((svcParamResults svc).map Prod.fst).flatten ++
     svcActionIssues svc,
   (svcNameFinds svc).2 ++ svcAuthSuggs svc ++
     ((svcParamResults svc).map Prod.snd).flatten)

def serviceXsdUrl : String := "http://moqui.org/xsd/service-definition-3.xsd"

/-- check_service_patterns of validate_service.py on an already-parsed tree. -/
def check_service_patterns (root : Node) : List Finding × List Finding :=
  let rootIssues := if root.tag != "services" then [Finding.rootShouldBeServices] else []
  let nsSuggs :=
    if !(nsMarkerInAttribs root.attrs serviceXsdUrl) then [Finding.nsServiceSuggestion] else []
  let svcs := root.findall "service"
  (rootIssues ++ (svcs.map (fun s => (checkService s).1)).flatten,
   nsSuggs ++ (svcs.map (fun s => (checkService s).2)).flatten)

/-- Outcome of parsing one file: a tree, or an ElementTree ParseError. -/
inductive ParseResult where
  | ok (root : Node)
  | failed
deriving Repr

/--
validate_entity_file (validate_entity.py, lines 128-162): True exactly
when the file parses and check_entity_patterns reports zero issues;
suggestions are printed but do not enter the return value.
-/
def validate_entity_file (p : ParseResult) : Bool :=
  match p with
  | .ok root => ((check_entity_patterns root).1).isEmpty
  | .failed => false

/--
Reduction loop of validate_directory (validate_entity.py, lines 187-192):
all_valid starts True and is cleared by any file whose validation fails.
-/
def validate_directory (files : List ParseResult) : Bool :=
  files.foldl (fun acc f => if !(validate_entity_file f) then false else acc) true

/-- Recognisers for the finding kinds the claims count. -/
def isVerbCasing : Finding → Bool
  | .verbShouldBeLowercase _ => true
  | _ => false

def isNounCasing : Finding → Bool
  | .nounPascalSuggestion _ => true
  | _ => false

def isPkNaming : Finding → Bool
  | .pkNamingSuggestion _ _ _ => true
  | _ => false

def isUnknownType : Finding → Bool
  | .fieldUnknownType _ _ _ => true
  | _ => false

def isDateSuffix : Finding → Bool
  | .dateSuffixSuggestion _ _ => true
  | _ => false

def isMissingActions : Finding → Bool
  | .serviceMissingActions _ => true
  | _ => false

def isEmptyActions : Finding → Bool
  | .serviceEmptyActions _ => true
  | _ => false

def isRelTypeSuggestion : Finding → Bool
  | .relTypeSuggestion _ _ => true
  | _ => false

def isRequireAllRoles : Finding → Bool
  | .requireAllRolesSuggestion _ => true
  | _ => false

/-! Helper lemmas shared by the claim theorems. -/

theorem countP_flatten_zero {α : Type} (p : α → Bool) (l : List (List α))
    (h : ∀ x ∈ l, x.countP p = 0) : l.flatten.countP p = 0 := by
  induction l with
  | nil => rfl
  | cons x xs ih =>
    simp only [List.flatten_cons, List.countP_append]
    rw [h x (by simp), ih (fun y hy => h y (by simp [hy]))]

theorem countP_checkParameter_fst (sn : String) (pm : Node) (p : Finding → Bool)
    (h : ∀ s, p (Finding.paramMissingName s) = false) :
    ((checkParameter sn pm).1).countP p = 0 := by
  unfold checkParameter
  cases truthy (pm.get "name") with
  | none => simp [List.countP_cons, h]
  | some pname =>
    by_cases hc : truthy (pm.get "type") == none && truthy (pm.get "required") == none <;>
      simp [hc]

theorem countP_checkParameter_snd (sn : String) (pm : Node) (p : Finding → Bool)
    (h : ∀ s, p (Finding.paramTypeSuggestion s) = false) :
    ((checkParameter sn pm).2).countP p = 0 := by
  unfold checkParameter
  cases truthy (pm.get "name") with
  | none => simp
  | some pname =>
    by_cases hc : truthy (pm.get "type") == none && truthy (pm.get "required") == none <;>
      simp [hc, List.countP_cons, h]

theorem countP_svcParamIssues (svc : Node) (p : Finding → Bool)
    (h : ∀ s, p (Finding.paramMissingName s) = false) :
    (((svcParamResults svc).map Prod.fst).flatten).countP p = 0 := by
  apply countP_flatten_zero
  intro x hx
  simp only [List.mem_map] at hx
  obtain ⟨pr, hpr, rfl⟩ := hx
  unfold svcParamResults at hpr
  cases hip : svc.find "in-parameters" with
  | none => rw [hip] at hpr; simp at hpr
  | some ip =>
    rw [hip] at hpr
    simp only [List.mem_map] at hpr
    obtain ⟨pm, _, rfl⟩ := hpr
    exact countP_checkParameter_fst _ pm p h

theorem countP_svcParamSuggs (svc : Node) (p : Finding → Bool)
    (h : ∀ s, p (Finding.paramTypeSuggestion s) = false) :
    (((svcParamResults svc).map Prod.snd).flatten).countP p = 0 := by
  apply countP_flatten_zero
  intro x hx
  simp only [List.mem_map] at hx
  obtain ⟨pr, hpr, rfl⟩ := hx
  unfold svcParamResults at hpr
  cases hip : svc.find "in-parameters" with
  | none => rw [hip] at hpr; simp at hpr
  | some ip =>
    rw [hip] at hpr
    simp only [List.mem_map] at hpr
    obtain ⟨pm, _, rfl⟩ := hpr
    exact countP_checkParameter_snd _ pm p h

/-- Claim C1, counterexample: a tree whose root tag is config, with one bare
entity child, yields the root-mismatch Issue but evaluation continues — the
namespace Suggestion and the full per-entity rules are still emitted, so the
file does not yield exactly one Issue and the namespace Suggestion is not
suppressed, contradicting the claim as stated. -/
theorem C1_counterexample :
    check_entity_patterns (Node.mk "config" [] [Node.mk "entity" [] [] none] none) =
      ([Finding.rootShouldBeEntities, Finding.entityMissingName,
        Finding.entityMissingPackage "unnamed entity",
        Finding.entityNoFields "unnamed entity",
        Finding.entityNoPrimaryKey "unnamed entity"],
       [Finding.nsEntitySuggestion,
        Finding.entityNamingSuggestion "unnamed entity"]) ∧
    (check_entity_patterns
        (Node.mk "config" [] [Node.mk "entity" [] [] none] none)).1.length ≠ 1 ∧
    (check_entity_patterns
        (Node.mk "config" [] [Node.mk "entity" [] [] none] none)).2 ≠ [] := by
  decide

/-- Claim C1 (amended): when the root tag differs from the expected root of
the dialect, the root-mismatch Issue is emitted first, but evaluation does
not stop: the namespace check and the per-entity (per-service) rules still
run exactly as on the same tree with the expected root tag. -/
theorem C1_root_mismatch_continues (n : Node) :
    (n.tag ≠ "entities" →
      check_entity_patterns n =
        (Finding.rootShouldBeEntities ::
           (check_entity_patterns (retag n "entities")).1,
         (check_entity_patterns (retag n "entities")).2)) ∧
    (n.tag ≠ "services" →
      check_service_patterns n =
        (Finding.rootShouldBeServices ::
           (check_service_patterns (retag n "services")).1,
         (check_service_patterns (retag n "services")).2)) := by
  obtain ⟨t, a, c, tx⟩ := n
  constructor
  · intro h
    simp only [Node.tag] at h
    simp [check_entity_patterns, retag, Node.tag, Node.attrs, Node.children,
      Node.findall, bne_iff_ne, h]
  · intro h
    simp only [Node.tag] at h
    simp [check_service_patterns, retag, Node.tag, Node.attrs, Node.children,
      Node.findall, bne_iff_ne, h]

/-- Claim C1, witness for the amended theorem at a concrete wrong-root tree. -/
theorem C1_root_mismatch_continues_witness :
    (Node.mk "config" [] [] none).tag ≠ "entities" ∧
    check_entity_patterns (Node.mk "config" [] [] none) =
      (Finding.rootShouldBeEntities ::
         (check_entity_patterns (retag (Node.mk "config" [] [] none) "entities")).1,
       (check_entity_patterns (retag (Node.mk "config" [] [] none) "entities")).2) :=
  ⟨by decide, (C1_root_mismatch_continues (Node.mk "config" [] [] none)).1 (by decide)⟩

/-- Count of verb-casing findings among the action-block issues is zero. -/
theorem countP_svcActionIssues (svc : Node) (p : Finding → Bool)
    (h1 : ∀ s, p (Finding.serviceMissingActions s) = false)
    (h2 : ∀ s, p (Finding.serviceEmptyActions s) = false) :
    (svcActionIssues svc).countP p = 0 := by
  unfold svcActionIssues
  cases hfa : svc.find "actions" with
  | none => simp [h1]
  | some a =>
    cases htx : a.text with
    | none => simp [htx, h2]
    | some tx => by_cases h : pyStrip tx = "" <;> simp [htx, h, h2]

/-- Claim C2, counterexample: a service with verb Create (which contains an
uppercase character) but no noun attribute yields zero verb-casing Issues —
the casing check only runs when verb and noun are both present — so the
claim that the Issue is emitted regardless of the noun attribute is false. -/
theorem C2_counterexample :
    (Node.mk "service" [("verb", "Create")] [] none).get "verb" = some "Create" ∧
    (Node.mk "service" [("verb", "Create")] [] none).get "noun" = none ∧
    (check_service_patterns (Node.mk "services" []
        [Node.mk "service" [("verb", "Create")] [] none] none)).1.countP
      isVerbCasing = 0 := by
  decide

/-- Claim C2 (amended): a verb-casing Issue is emitted only when the verb and
noun attributes are both present and nonempty, and then exactly one is
emitted iff the verb fails the Python islower test (so also when the verb
has no cased characters at all); when verb or noun is missing or empty, no
verb-casing Issue is emitted. -/
theorem C2_verb_casing (svc : Node) :
    (checkService svc).1.countP isVerbCasing =
      (match truthy (svc.get "verb"), truthy (svc.get "noun") with
       | some v, some _ => if pyIslower v then 0 else 1
       | _, _ => 0) := by
  have hparam := countP_svcParamIssues svc isVerbCasing (fun _ => rfl)
  have hact := countP_svcActionIssues svc isVerbCasing (fun _ => rfl) (fun _ => rfl)
  simp only [checkService, List.countP_append, hparam, hact, Nat.add_zero]
  unfold svcNameFinds
  cases hv : truthy (svc.get "verb") with
  | none => rfl
  | some v =>
    cases hn : truthy (svc.get "noun") with
    | none => rfl
    | some n =>
      by_cases hl : pyIslower v <;> simp [hl, isVerbCasing]

/-- Claim C3, counterexample: a service with noun order (lowercase first
character) but no verb attribute yields zero noun-casing Suggestions — the
casing check only runs when verb and noun are both present — so the claim
that the Suggestion is emitted independently of the verb attribute is
false. -/
theorem C3_counterexample :
    (Node.mk "service" [("noun", "order")] [] none).get "noun" = some "order" ∧
    (Node.mk "service" [("noun", "order")] [] none).get "verb" = none ∧
    (check_service_patterns (Node.mk "services" []
        [Node.mk "service" [("noun", "order")] [] none] none)).2.countP
      isNounCasing = 0 := by
  decide

/-- Claim C3 (amended): a noun-casing Suggestion is emitted only when the
verb and noun attributes are both present and nonempty, and then exactly one
is emitted iff the first character of the noun is not uppercase, independent
of the outcome of the verb-casing check; when verb or noun is missing or
empty, no noun-casing Suggestion is emitted. -/
theorem C3_noun_casing (svc : Node) :
    (checkService svc).2.countP isNounCasing =
      (match truthy (svc.get "verb"), truthy (svc.get "noun") with
       | some _, some n => if pyFirstIsUpper n then 0 else 1
       | _, _ => 0) := by
  have hparam := countP_svcParamSuggs svc isNounCasing (fun _ => rfl)
  have hauth : (svcAuthSuggs svc).countP isNounCasing = 0 := by
    unfold svcAuthSuggs
    by_cases h : ((svc.get "authenticate").getD "true") == "true" &&
        truthy (svc.get "require-all-roles") == none <;> simp [h, isNounCasing]
  simp only [checkService, List.countP_append, hparam, hauth, Nat.add_zero]
  unfold svcNameFinds
  cases hv : truthy (svc.get "verb") with
  | none => rfl
  | some v =>
    cases hn : truthy (svc.get "noun") with
    | none => rfl
    | some n =>
      by_cases hu : pyFirstIsUpper n <;> simp [hu, isNounCasing]

/-- The directory fold equals the conjunction of the per-file verdicts. -/
theorem validate_directory_foldl (files : List ParseResult) (b : Bool) :
    files.foldl (fun acc f => if !(validate_entity_file f) then false else acc) b =
      (b && files.all validate_entity_file) := by
  induction files generalizing b with
  | nil => simp
  | cons x xs ih =>
    simp only [List.foldl_cons, List.all_cons]
    rw [ih]
    by_cases h : validate_entity_file x <;> simp [h, Bool.and_assoc]

/-- Claim C4: the overall verdict of a batch is success iff every file
parsed successfully and produced zero Issues; the right-hand side never
mentions the suggestions component, so Suggestions affect neither a file
verdict nor the overall verdict. -/
theorem C4_batch_verdict (files : List ParseResult) :
    validate_directory files = true ↔
      ∀ p ∈ files, ∃ root, p = ParseResult.ok root ∧
        (check_entity_patterns root).1 = [] := by
  unfold validate_directory
  rw [validate_directory_foldl files true]
  simp only [Bool.true_and, List.all_eq_true]
  constructor
  · intro h p hp
    have hv := h p hp
    cases p with
    | ok root =>
      refine ⟨root, rfl, ?_⟩
      simpa [validate_entity_file, List.isEmpty_iff] using hv
    | failed => simp [validate_entity_file] at hv
  · intro h p hp
    obtain ⟨root, rfl, hroot⟩ := h p hp
    simp [validate_entity_file, hroot, List.isEmpty_iff]

/-! Per-component count lemmas for the field checks. -/

theorem countP_fieldTypeSuggs (en n : String) (ft : Option String)
    (p : Finding → Bool) (h : ∀ a b c, p (Finding.fieldUnknownType a b c) = false) :
    (fieldTypeSuggs en n ft).countP p = 0 := by
  unfold fieldTypeSuggs
  cases htf : truthy ft with
  | none => rfl
  | some t => by_cases hm : t ∈ VALID_FIELD_TYPES <;> simp [hm, h]

theorem countP_fieldPkSuggs (en n : String) (isPk : Bool)
    (p : Finding → Bool) (h : ∀ a b c, p (Finding.pkNamingSuggestion a b c) = false) :
    (fieldPkSuggs en n isPk).countP p = 0 := by
  unfold fieldPkSuggs
  by_cases hc : isPk && n != pyLower en ++ "Id" <;> simp [hc, h]

theorem countP_fieldIdSuggs (en n : String) (ft : Option String)
    (p : Finding → Bool) (h : ∀ a b, p (Finding.idSuffixSuggestion a b) = false) :
    (fieldIdSuggs en n ft).countP p = 0 := by
  unfold fieldIdSuggs
  by_cases hc : pyEndswith n "Id" && ft != some "id" <;> simp [hc, h]

theorem countP_fieldDateSuggs (en n : String) (ft : Option String)
    (p : Finding → Bool) (h : ∀ a b, p (Finding.dateSuffixSuggestion a b) = false) :
    (fieldDateSuggs en n ft).countP p = 0 := by
  unfold fieldDateSuggs
  cases htf : truthy ft with
  | none => rfl
  | some t =>
    by_cases hc : pyEndswith n "Date" && !(strContains t "date") <;> simp [hc, h]

/-- Claim C5: for a field with a truthy name flagged is-pk=true, the expected
primary-key name is lowercase(entity-name) ++ Id, exactly one Suggestion
proposing that name is emitted when the field name differs from it, and none
when it matches. -/
theorem C5_pk_naming (entityName : String) (f : Node) (n : String)
    (hname : truthy (f.get "name") = some n)
    (hpk : f.get "is-pk" = some "true") :
    (checkField entityName f).2.1.countP isPkNaming =
      (if n = pyLower entityName ++ "Id" then 0 else 1) ∧
    (n ≠ pyLower entityName ++ "Id" →
      Finding.pkNamingSuggestion entityName n (pyLower entityName ++ "Id") ∈
        (checkField entityName f).2.1) := by
  have h1 := countP_fieldTypeSuggs entityName n (f.get "type") isPkNaming
    (fun _ _ _ => rfl)
  have h3 := countP_fieldIdSuggs entityName n (f.get "type") isPkNaming
    (fun _ _ => rfl)
  have h4 := countP_fieldDateSuggs entityName n (f.get "type") isPkNaming
    (fun _ _ => rfl)
  have hpkb : (f.get "is-pk" == some "true") = true := by simp [hpk]
  constructor
  · simp only [checkField, hname, List.countP_append, h1, h3, h4,
      Nat.add_zero, Nat.zero_add]
    unfold fieldPkSuggs
    by_cases he : n = pyLower entityName ++ "Id" <;>
      simp [hpkb, he, isPkNaming]
  · intro hne
    simp only [checkField, hname, List.mem_append]
    refine Or.inl (Or.inl (Or.inr ?_))
    unfold fieldPkSuggs
    simp [hpkb, hne]

/-- Claim C5, witness: entity name Order with a primary-key field named id
yields exactly one Suggestion proposing orderId. -/
theorem C5_pk_naming_witness :
    truthy ((Node.mk "field" [("name", "id"), ("type", "id"), ("is-pk", "true")]
        [] none).get "name") = some "id" ∧
    (Node.mk "field" [("name", "id"), ("type", "id"), ("is-pk", "true")]
        [] none).get "is-pk" = some "true" ∧
    ((checkField "Order" (Node.mk "field"
        [("name", "id"), ("type", "id"), ("is-pk", "true")] [] none)).2.1.countP
      isPkNaming = (if "id" = pyLower "Order" ++ "Id" then 0 else 1) ∧
     ("id" ≠ pyLower "Order" ++ "Id" →
       Finding.pkNamingSuggestion "Order" "id" (pyLower "Order" ++ "Id") ∈
         (checkField "Order" (Node.mk "field"
           [("name", "id"), ("type", "id"), ("is-pk", "true")] [] none)).2.1)) :=
  ⟨by decide, by decide,
   C5_pk_naming "Order" (Node.mk "field"
     [("name", "id"), ("type", "id"), ("is-pk", "true")] [] none) "id"
     (by decide) (by decide)⟩

/-- Claim C6: per service, the missing-actions Issue and the empty-actions
Issue are mutually exclusive and exhaustive over defective actions: no
actions child gives exactly one missing-actions Issue, an actions child with
absent or whitespace-only text gives exactly one empty-actions Issue, a
nonblank body gives neither, and the two findings are distinct. -/
theorem C6_actions (svc : Node) :
    ((checkService svc).1.countP isMissingActions,
     (checkService svc).1.countP isEmptyActions) =
      (match svc.find "actions" with
       | none => (1, 0)
       | some a =>
         match a.text with
         | none => (0, 1)
         | some tx => if pyStrip tx = "" then (0, 1) else (0, 0)) ∧
    (∀ s, Finding.serviceMissingActions s ≠ Finding.serviceEmptyActions s) := by
  refine ⟨?_, fun s => by simp⟩
  have hp1 := countP_svcParamIssues svc isMissingActions (fun _ => rfl)
  have hp2 := countP_svcParamIssues svc isEmptyActions (fun _ => rfl)
  have hn1 : ((svcNameFinds svc).1).countP isMissingActions = 0 := by
    unfold svcNameFinds
    cases hv : truthy (svc.get "verb") with
    | none => rfl
    | some v =>
      cases hn : truthy (svc.get "noun") with
      | none => rfl
      | some n => by_cases hl : pyIslower v <;> simp [hl, isMissingActions]
  have hn2 : ((svcNameFinds svc).1).countP isEmptyActions = 0 := by
    unfold svcNameFinds
    cases hv : truthy (svc.get "verb") with
    | none => rfl
    | some v =>
      cases hn : truthy (svc.get "noun") with
      | none => rfl
      | some n => by_cases hl : pyIslower v <;> simp [hl, isEmptyActions]
  simp only [checkService, List.countP_append, hp1, hp2, hn1, hn2,
    Nat.add_zero, Nat.zero_add]
  unfold svcActionIssues
  cases hfa : svc.find "actions" with
  | none => rfl
  | some a =>
    cases htx : a.text with
    | none => simp [htx, isMissingActions, isEmptyActions]
    | some tx =>
      by_cases hb : pyStrip tx = "" <;> simp [htx, hb, isMissingActions, isEmptyActions]

/-- Claim C7: an entity whose field list is nonempty but contributes no
primary-key candidates receives the no-primary-key Issue carrying the
display name of the entity; and a field with a missing or empty name yields
exactly the missing-name Issue, no suggestions, and no primary-key
candidate, regardless of any is-pk attribute. -/
theorem C7_primary_key (e : Node) (en : String) (f : Node) :
    (e.findall "field" ≠ [] → entityPrimaryKeys e = [] →
      Finding.entityNoPrimaryKey (entityDisplayName e) ∈ (checkEntity e).1) ∧
    (truthy (f.get "name") = none →
      checkField en f = ([Finding.fieldMissingName en], [], [])) := by
  constructor
  · intro _ hpk
    simp only [checkEntity, List.mem_append, entityPrimaryKeys] at hpk ⊢
    refine Or.inl (Or.inr ?_)
    simp [entityPrimaryKeys, hpk]
  · intro h
    simp [checkField, h]

/-- Claim C7, witness: an entity with one field which is flagged is-pk=true
but has no name attribute gets the no-primary-key Issue, and the field gets
the missing-name Issue with no primary-key candidate recorded. -/
theorem C7_primary_key_witness :
    ((Node.mk "entity" [("entity-name", "Order")]
        [Node.mk "field" [("is-pk", "true")] [] none] none).findall "field" ≠ [] ∧
     entityPrimaryKeys (Node.mk "entity" [("entity-name", "Order")]
        [Node.mk "field" [("is-pk", "true")] [] none] none) = [] ∧
     truthy ((Node.mk "field" [("is-pk", "true")] [] none).get "name") = none) ∧
    (Finding.entityNoPrimaryKey (entityDisplayName (Node.mk "entity"
        [("entity-name", "Order")]
        [Node.mk "field" [("is-pk", "true")] [] none] none)) ∈
      (checkEntity (Node.mk "entity" [("entity-name", "Order")]
        [Node.mk "field" [("is-pk", "true")] [] none] none)).1 ∧
     checkField "Order" (Node.mk "field" [("is-pk", "true")] [] none) =
       ([Finding.fieldMissingName "Order"], [], [])) :=
  ⟨⟨by simp [Node.findall, Node.children, Node.tag], by decide, by decide⟩,
   ⟨(C7_primary_key (Node.mk "entity" [("entity-name", "Order")]
        [Node.mk "field" [("is-pk", "true")] [] none] none) "Order"
        (Node.mk "field" [("is-pk", "true")] [] none)).1
        (by simp [Node.findall, Node.children, Node.tag]) (by decide),
    (C7_primary_key (Node.mk "entity" [("entity-name", "Order")]
        [Node.mk "field" [("is-pk", "true")] [] none] none) "Order"
        (Node.mk "field" [("is-pk", "true")] [] none)).2 (by decide)⟩⟩

/-- Claim C8, counterexample: a field whose type attribute is present with
the empty-string value — a value outside the sixteen-element recognized set
— yields the missing-type Issue and zero Suggestions, not one Suggestion
and zero Issues as the claim states. -/
theorem C8_counterexample :
    (Node.mk "field" [("name", "x"), ("type", "")] [] none).get "type" =
      some "" ∧
    "" ∉ VALID_FIELD_TYPES ∧
    checkField "Widget" (Node.mk "field" [("name", "x"), ("type", "")] [] none) =
      ([Finding.fieldMissingType "Widget" "x"], [], []) := by
  decide

/-- Claim C8 (amended): for a field with a truthy name and a truthy (hence
nonempty) type value outside the recognized set, zero Issues and exactly one
unknown-type Suggestion are emitted for the field, and the Suggestion
carries both the entity name and the field name; a type present with the
empty-string value instead yields the missing-type Issue. -/
theorem C8_unknown_type (en : String) (f : Node) (n t : String)
    (hname : truthy (f.get "name") = some n)
    (htype : truthy (f.get "type") = some t)
    (hmem : t ∉ VALID_FIELD_TYPES) :
    (checkField en f).1 = [] ∧
    (checkField en f).2.1.countP isUnknownType = 1 ∧
    Finding.fieldUnknownType en n t ∈ (checkField en f).2.1 := by
  have h2 := countP_fieldPkSuggs en n (f.get "is-pk" == some "true")
    isUnknownType (fun _ _ _ => rfl)
  have h3 := countP_fieldIdSuggs en n (f.get "type") isUnknownType (fun _ _ => rfl)
  have h4 := countP_fieldDateSuggs en n (f.get "type") isUnknownType (fun _ _ => rfl)
  have hts : fieldTypeSuggs en n (f.get "type") = [Finding.fieldUnknownType en n t] := by
    unfold fieldTypeSuggs
    simp [htype, hmem]
  refine ⟨?_, ?_, ?_⟩
  · simp [checkField, hname, fieldTypeIssues, htype]
  · simp only [checkField, hname, List.countP_append, h2, h3, h4,
      Nat.add_zero, hts]
    simp [isUnknownType]
  · simp [checkField, hname, hts]

/-- Claim C8, witness: a field of type widget-blob in entity Widget yields
zero Issues and exactly one unknown-type Suggestion naming both. -/
theorem C8_unknown_type_witness :
    (truthy ((Node.mk "field" [("name", "color"), ("type", "widget-blob")]
        [] none).get "name") = some "color" ∧
     truthy ((Node.mk "field" [("name", "color"), ("type", "widget-blob")]
        [] none).get "type") = some "widget-blob" ∧
     "widget-blob" ∉ VALID_FIELD_TYPES) ∧
    ((checkField "Widget" (Node.mk "field"
        [("name", "color"), ("type", "widget-blob")] [] none)).1 = [] ∧
     (checkField "Widget" (Node.mk "field"
        [("name", "color"), ("type", "widget-blob")] [] none)).2.1.countP
       isUnknownType = 1 ∧
     Finding.fieldUnknownType "Widget" "color" "widget-blob" ∈
       (checkField "Widget" (Node.mk "field"
         [("name", "color"), ("type", "widget-blob")] [] none)).2.1) :=
  ⟨⟨by decide, by decide, by decide⟩,
   C8_unknown_type "Widget" (Node.mk "field"
     [("name", "color"), ("type", "widget-blob")] [] none) "color" "widget-blob"
     (by decide) (by decide) (by decide)⟩

/-- Claim C9, counterexample: a field named startDate with no type attribute
yields no date-suffix Suggestion at all — the check is guarded by the
truthiness of the type — contradicting the claim that the Suggestion is
emitted when the type attribute is absent. -/
theorem C9_counterexample :
    (Node.mk "field" [("name", "startDate")] [] none).get "type" = none ∧
    checkField "E" (Node.mk "field" [("name", "startDate")] [] none) =
      ([Finding.fieldMissingType "E" "startDate"], [], []) ∧
    (checkField "E" (Node.mk "field" [("name", "startDate")] [] none)).2.1.countP
      isDateSuffix = 0 := by
  decide

/-- Claim C9 (amended): for a field with a truthy name, exactly one
date-suffix Suggestion is emitted iff the name ends in Date, the type is
present and nonempty, and date is not a substring of the type; when the type
is absent or empty no date-suffix Suggestion is emitted. -/
theorem C9_date_suffix (en : String) (f : Node) (n : String)
    (hname : truthy (f.get "name") = some n) :
    (checkField en f).2.1.countP isDateSuffix =
      (match truthy (f.get "type") with
       | some t => if pyEndswith n "Date" && !(strContains t "date") then 1 else 0
       | none => 0) := by
  have h1 := countP_fieldTypeSuggs en n (f.get "type") isDateSuffix
    (fun _ _ _ => rfl)
  have h2 := countP_fieldPkSuggs en n (f.get "is-pk" == some "true")
    isDateSuffix (fun _ _ _ => rfl)
  have h3 := countP_fieldIdSuggs en n (f.get "type") isDateSuffix (fun _ _ => rfl)
  simp only [checkField, hname, List.countP_append, h1, h2, h3,
    Nat.add_zero, Nat.zero_add]
  unfold fieldDateSuggs
  cases htf : truthy (f.get "type") with
  | none => rfl
  | some t =>
    by_cases hc : pyEndswith n "Date" && !(strContains t "date") <;>
      simp [hc, isDateSuffix]

/-- Claim C9, witness: a field named startDate of type text-short gets
exactly one date-suffix Suggestion. -/
theorem C9_date_suffix_witness :
    truthy ((Node.mk "field" [("name", "startDate"), ("type", "text-short")]
        [] none).get "name") = some "startDate" ∧
    (checkField "E" (Node.mk "field"
        [("name", "startDate"), ("type", "text-short")] [] none)).2.1.countP
      isDateSuffix =
      (match truthy ((Node.mk "field"
          [("name", "startDate"), ("type", "text-short")] [] none).get "type") with
       | some t =>
         if pyEndswith "startDate" "Date" && !(strContains t "date") then 1 else 0
       | none => 0) :=
  ⟨by decide,
   C9_date_suffix "E" (Node.mk "field"
     [("name", "startDate"), ("type", "text-short")] [] none) "startDate"
     (by decide)⟩

/-- Claim C10, counterexample: present-with-empty-value is not treated
exactly like absent everywhere: an entity with entity-name set to the empty
string yields no suggestions, while the same entity with entity-name absent
is displayed as unnamed entity, which fails the alphanumeric naming
convention and yields the naming Suggestion. -/
theorem C10_counterexample :
    (Node.mk "entity" [("entity-name", "")] [] none).get "entity-name" =
      some "" ∧
    (Node.mk "entity" [] [] none).get "entity-name" = none ∧
    (checkEntity (Node.mk "entity" [("entity-name", "")] [] none)).2 = [] ∧
    (checkEntity (Node.mk "entity" [] [] none)).2 =
      [Finding.entityNamingSuggestion "unnamed entity"] := by
  decide

/-- Claim C10 (amended): the three truthiness-based presence checks named by
the claim do treat an empty value like an absent one: entity-name empty
yields the missing-entity-name Issue, relationship type empty yields the
missing-type Issue and no unknown-type Suggestion, and require-all-roles
empty (with authenticate absent or true) still yields exactly one
require-all-roles Suggestion; but this does not extend to every check, as
the naming-convention check distinguishes the two cases. -/
theorem C10_empty_as_absent (e rel svc : Node) (en : String) :
    (e.get "entity-name" = some "" →
      Finding.entityMissingName ∈ (checkEntity e).1) ∧
    (rel.get "type" = some "" →
      Finding.relMissingType en ∈ (checkRelationship en rel).1 ∧
      (checkRelationship en rel).2.countP isRelTypeSuggestion = 0) ∧
    (svc.get "require-all-roles" = some "" →
      (svc.get "authenticate" = none ∨ svc.get "authenticate" = some "true") →
      (checkService svc).2.countP isRequireAllRoles = 1) := by
  refine ⟨?_, ?_, ?_⟩
  · intro hget
    have ht : truthy (e.get "entity-name") = none := by rw [hget]; rfl
    simp only [checkEntity, List.mem_append]
    exact Or.inl (by simp [ht])
  · intro hget
    have ht : truthy (rel.get "type") = none := by rw [hget]; rfl
    constructor
    · simp [checkRelationship, ht]
    · cases hsa : truthy (rel.get "short-alias") <;>
        simp [checkRelationship, ht, hsa, isRelTypeSuggestion]
  · intro hroles hauth
    have hparam := countP_svcParamSuggs svc isRequireAllRoles (fun _ => rfl)
    have hn : ((svcNameFinds svc).2).countP isRequireAllRoles = 0 := by
      unfold svcNameFinds
      cases hv : truthy (svc.get "verb") with
      | none => rfl
      | some v =>
        cases hno : truthy (svc.get "noun") with
        | none => rfl
        | some n =>
          by_cases hu : pyFirstIsUpper n <;> simp [hu, isRequireAllRoles]
    have hau : svcAuthSuggs svc =
        [Finding.requireAllRolesSuggestion (serviceDisplayName svc)] := by
      unfold svcAuthSuggs
      rcases hauth with h | h <;> rw [h, hroles] <;> rfl
    simp only [checkService, List.countP_append, hparam, hn, hau,
      Nat.add_zero, Nat.zero_add]
    simp [isRequireAllRoles]

/-- Claim C10, witness: the three amended instances at concrete nodes. -/
theorem C10_empty_as_absent_witness :
    ((Node.mk "entity" [("entity-name", "")] [] none).get "entity-name" =
        some "" ∧
     (Node.mk "relationship" [("type", "")] [] none).get "type" = some "" ∧
     (Node.mk "service" [("require-all-roles", "")] [] none).get
        "require-all-roles" = some "" ∧
     (Node.mk "service" [("require-all-roles", "")] [] none).get
        "authenticate" = none) ∧
    (Finding.entityMissingName ∈
      (checkEntity (Node.mk "entity" [("entity-name", "")] [] none)).1 ∧
     Finding.relMissingType "E" ∈
      (checkRelationship "E" (Node.mk "relationship" [("type", "")] [] none)).1 ∧
     (checkRelationship "E" (Node.mk "relationship" [("type", "")]
        [] none)).2.countP isRelTypeSuggestion = 0 ∧
     (checkService (Node.mk "service" [("require-all-roles", "")]
        [] none)).2.countP isRequireAllRoles = 1) :=
  ⟨⟨by decide, by decide, by decide, by decide⟩,
   (C10_empty_as_absent (Node.mk "entity" [("entity-name", "")] [] none)
      (Node.mk "relationship" [("type", "")] [] none)
      (Node.mk "service" [("require-all-roles", "")] [] none) "E").1 (by decide),
   ((C10_empty_as_absent (Node.mk "entity" [("entity-name", "")] [] none)
      (Node.mk "relationship" [("type", "")] [] none)
      (Node.mk "service" [("require-all-roles", "")] [] none) "E").2.1
      (by decide)).1,
   ((C10_empty_as_absent (Node.mk "entity" [("entity-name", "")] [] none)
      (Node.mk "relationship" [("type", "")] [] none)
      (Node.mk "service" [("require-all-roles", "")] [] none) "E").2.1
      (by decide)).2,
   (C10_empty_as_absent (Node.mk "entity" [("entity-name", "")] [] none)
      (Node.mk "relationship" [("type", "")] [] none)
      (Node.mk "service" [("require-all-roles", "")] [] none) "E").2.2
      (by decide) (Or.inl (by decide))⟩
